import Mathlib

/-!
Verification of the int3nts cross-chain intent system core.

This file gives a shallow embedding, in Lean 4, of:
* the GMP binary message codec
  (`src/intent-frameworks/svm/programs/gmp-common/src/messages.rs`);
* the SVM escrow state machine
  (`src/intent-frameworks/svm/programs/intent_escrow/src/processor.rs`);
* the inflow fulfillment validator and metadata normalization
  (`src/trusted-verifier/src/validator/inflow_generic.rs`);
* the address normalizer and solver-registry resolver, modelled from the
  specification where the source is not part of the extracted tree.

Bytes are modelled as natural numbers below 256, byte buffers as `List Nat`,
Rust `u64` as `Nat` with explicit bounds, Rust `i64` timestamps as `Int`,
and fallible operations as `Except`.
-/

namespace Intents

/-! ### Byte-buffer primitives -/

/-- Big-endian byte encoding of a natural number in `k` bytes.
Rust `u64::to_be_bytes` is `beBytes 8` on values below `2 ^ 64`. -/
def beBytes : Nat → Nat → List Nat
  | 0, _ => []
  | k + 1, n => beBytes k (n / 256) ++ [n % 256]

/-- Big-endian byte decoding; Rust `u64::from_be_bytes`. -/
def fromBe (l : List Nat) : Nat :=
  l.foldl (fun acc b => acc * 256 + b) 0

theorem length_beBytes (k n : Nat) : (beBytes k n).length = k := by
  induction k generalizing n with
  | zero => rfl
  | succ k ih => simp [beBytes, ih]

theorem beBytes_lt (k n : Nat) : ∀ b ∈ beBytes k n, b < 256 := by
  induction k generalizing n with
  | zero => simp [beBytes]
  | succ k ih =>
    intro b hb
    simp only [beBytes, List.mem_append, List.mem_singleton] at hb
    rcases hb with h | h
    · exact ih _ _ h
    · omega

theorem foldl_mulAdd (l : List Nat) (acc : Nat) :
    l.foldl (fun a b => a * 256 + b) acc = acc * 256 ^ l.length + fromBe l := by
  induction l generalizing acc with
  | nil => simp [fromBe]
  | cons b l ih =>
    simp only [List.foldl_cons, List.length_cons, fromBe]
    rw [ih (acc * 256 + b), ih (0 * 256 + b)]
    ring

theorem fromBe_append (l₁ l₂ : List Nat) :
    fromBe (l₁ ++ l₂) = fromBe l₁ * 256 ^ l₂.length + fromBe l₂ := by
  unfold fromBe
  rw [List.foldl_append, foldl_mulAdd]
  rfl

theorem fromBe_beBytes (k n : Nat) : fromBe (beBytes k n) = n % 256 ^ k := by
  induction k generalizing n with
  | zero => simp [beBytes, fromBe, Nat.mod_one]
  | succ k ih =>
    rw [beBytes, fromBe_append, ih]
    have h1 : fromBe [n % 256] = n % 256 := by simp [fromBe]
    have h2 : ([n % 256] : List Nat).length = 1 := rfl
    rw [h1, h2, pow_one]
    have h3 : n % (256 * 256 ^ k) = n % 256 + 256 * (n / 256 % 256 ^ k) := Nat.mod_mul
    have h4 : (256 : Nat) ^ (k + 1) = 256 * 256 ^ k := by ring
    rw [h4, h3]
    ring

theorem beBytes_fromBe (l : List Nat) (hb : ∀ b ∈ l, b < 256) :
    beBytes l.length (fromBe l) = l := by
  induction l using List.reverseRecOn with
  | nil => rfl
  | append_singleton l b ih =>
    have hblt : b < 256 := hb b (by simp)
    have hl : ∀ x ∈ l, x < 256 := fun x hx => hb x (by simp [hx])
    have hfb : fromBe (l ++ [b]) = fromBe l * 256 + b := by
      rw [fromBe_append]
      simp [fromBe]
    have hlen : (l ++ [b]).length = l.length + 1 := by simp
    rw [hlen, beBytes, hfb]
    have hdiv : (fromBe l * 256 + b) / 256 = fromBe l := by omega
    have hmod : (fromBe l * 256 + b) % 256 = b := by omega
    rw [hdiv, hmod, ih hl]

theorem fromBe_lt (l : List Nat) (hb : ∀ b ∈ l, b < 256) :
    fromBe l < 256 ^ l.length := by
  induction l using List.reverseRecOn with
  | nil => simp [fromBe]
  | append_singleton l b ih =>
    have hblt : b < 256 := hb b (by simp)
    have hl : ∀ x ∈ l, x < 256 := fun x hx => hb x (by simp [hx])
    have hfb : fromBe (l ++ [b]) = fromBe l * 256 + b := by
      rw [fromBe_append]
      simp [fromBe]
    have hlen : (l ++ [b]).length = l.length + 1 := by simp
    have hil := ih hl
    rw [hlen, hfb, pow_succ]
    nlinarith

/-- Extraction of the byte range `[start, start+len)` of a buffer, the model of
Rust slice indexing `data[start..start+len]`. -/
def listSlice (l : List Nat) (start len : Nat) : List Nat :=
  (l.drop start).take len

theorem slice_of_concat (pre mid post : List Nat) (s n : Nat)
    (hs : pre.length = s) (hn : mid.length = n) :
    listSlice (pre ++ (mid ++ post)) s n = mid := by
  unfold listSlice
  rw [List.drop_left' hs, List.take_left' hn]

theorem slice_of_concat_last (pre mid : List Nat) (s n : Nat)
    (hs : pre.length = s) (hn : mid.length = n) :
    listSlice (pre ++ mid) s n = mid := by
  unfold listSlice
  rw [List.drop_left' hs, ← hn, List.take_length]

/-- A well-formed 32-byte address or identifier, the model of Rust `[u8; 32]`. -/
def IsAddr (l : List Nat) : Prop := l.length = 32 ∧ ∀ b ∈ l, b < 256

instance (l : List Nat) : Decidable (IsAddr l) := by
  unfold IsAddr
  exact inferInstance

/-! ### GMP message codec

Embedding of `src/intent-frameworks/svm/programs/gmp-common/src/messages.rs`.
Three message kinds, discriminated by a leading type byte; all integers
big-endian, all addresses fixed 32 bytes. -/

/-- Message type discriminators (`GmpMessageType`); the discriminator byte of
each variant is given by `GmpMessageType.toByte`. -/
inductive GmpMessageType
  | IntentRequirements
  | EscrowConfirmation
  | FulfillmentProof
deriving DecidableEq, Repr

def GmpMessageType.toByte : GmpMessageType → Nat
  | .IntentRequirements => 0x01
  | .EscrowConfirmation => 0x02
  | .FulfillmentProof => 0x03

/-- Codec error type (`GmpError`). -/
inductive GmpError
  | InvalidMessageType (expected got : Nat)
  | InvalidLength (expected got : Nat)
  | UnknownMessageType (t : Nat)
deriving DecidableEq, Repr

/-- `GmpMessageType::from_byte`. -/
def GmpMessageType.fromByte (b : Nat) : Except GmpError GmpMessageType :=
  if b = 0x01 then .ok .IntentRequirements
  else if b = 0x02 then .ok .EscrowConfirmation
  else if b = 0x03 then .ok .FulfillmentProof
  else .error (.UnknownMessageType b)

def INTENT_REQUIREMENTS_SIZE : Nat := 145

def ESCROW_CONFIRMATION_SIZE : Nat := 137

def FULFILLMENT_PROOF_SIZE : Nat := 81

/-- Message type 0x01 (`IntentRequirements`): hub to connected chain,
requirements the escrow must meet. -/
structure IntentRequirements where
  intent_id : List Nat
  requester_addr : List Nat
  amount_required : Nat
  token_addr : List Nat
  solver_addr : List Nat
  expiry : Nat
deriving DecidableEq, Repr

/-- Field-range invariants of the Rust struct: `[u8; 32]` addresses and
`u64` integers. -/
def IntentRequirements.Wf (m : IntentRequirements) : Prop :=
  IsAddr m.intent_id ∧ IsAddr m.requester_addr ∧ m.amount_required < 2 ^ 64 ∧
    IsAddr m.token_addr ∧ IsAddr m.solver_addr ∧ m.expiry < 2 ^ 64

instance (m : IntentRequirements) : Decidable m.Wf := by
  unfold IntentRequirements.Wf
  exact inferInstance

/-- `IntentRequirements::encode`. -/
def IntentRequirements.encode (m : IntentRequirements) : List Nat :=
  [GmpMessageType.IntentRequirements.toByte] ++ m.intent_id ++ m.requester_addr ++
    beBytes 8 m.amount_required ++ m.token_addr ++ m.solver_addr ++ beBytes 8 m.expiry

/-- `IntentRequirements::decode`. -/
def IntentRequirements.decode (data : List Nat) : Except GmpError IntentRequirements :=
  if data.length ≠ INTENT_REQUIREMENTS_SIZE then
    .error (.InvalidLength INTENT_REQUIREMENTS_SIZE data.length)
  else if data.headD 0 ≠ GmpMessageType.IntentRequirements.toByte then
    .error (.InvalidMessageType GmpMessageType.IntentRequirements.toByte (data.headD 0))
  else
    .ok { intent_id := listSlice data 1 32
          requester_addr := listSlice data 33 32
          amount_required := fromBe (listSlice data 65 8)
          token_addr := listSlice data 73 32
          solver_addr := listSlice data 105 32
          expiry := fromBe (listSlice data 137 8) }

/-- Message type 0x02 (`EscrowConfirmation`): connected chain to hub,
confirms an escrow was created. -/
structure EscrowConfirmation where
  intent_id : List Nat
  escrow_id : List Nat
  amount_escrowed : Nat
  token_addr : List Nat
  creator_addr : List Nat
deriving DecidableEq, Repr

def EscrowConfirmation.Wf (m : EscrowConfirmation) : Prop :=
  IsAddr m.intent_id ∧ IsAddr m.escrow_id ∧ m.amount_escrowed < 2 ^ 64 ∧
    IsAddr m.token_addr ∧ IsAddr m.creator_addr

instance (m : EscrowConfirmation) : Decidable m.Wf := by
  unfold EscrowConfirmation.Wf
  exact inferInstance

/-- `EscrowConfirmation::encode`. -/
def EscrowConfirmation.encode (m : EscrowConfirmation) : List Nat :=
  [GmpMessageType.EscrowConfirmation.toByte] ++ m.intent_id ++ m.escrow_id ++
    beBytes 8 m.amount_escrowed ++ m.token_addr ++ m.creator_addr

/-- `EscrowConfirmation::decode`. -/
def EscrowConfirmation.decode (data : List Nat) : Except GmpError EscrowConfirmation :=
  if data.length ≠ ESCROW_CONFIRMATION_SIZE then
    .error (.InvalidLength ESCROW_CONFIRMATION_SIZE data.length)
  else if data.headD 0 ≠ GmpMessageType.EscrowConfirmation.toByte then
    .error (.InvalidMessageType GmpMessageType.EscrowConfirmation.toByte (data.headD 0))
  else
    .ok { intent_id := listSlice data 1 32
          escrow_id := listSlice data 33 32
          amount_escrowed := fromBe (listSlice data 65 8)
          token_addr := listSlice data 73 32
          creator_addr := listSlice data 105 32 }

/-- Message type 0x03 (`FulfillmentProof`): proves a solver fulfilled the
intent, triggering token release on the other chain. -/
structure FulfillmentProof where
  intent_id : List Nat
  solver_addr : List Nat
  amount_fulfilled : Nat
  timestamp : Nat
deriving DecidableEq, Repr

def FulfillmentProof.Wf (m : FulfillmentProof) : Prop :=
  IsAddr m.intent_id ∧ IsAddr m.solver_addr ∧ m.amount_fulfilled < 2 ^ 64 ∧
    m.timestamp < 2 ^ 64

instance (m : FulfillmentProof) : Decidable m.Wf := by
  unfold FulfillmentProof.Wf
  exact inferInstance

/-- `FulfillmentProof::encode`. -/
def FulfillmentProof.encode (m : FulfillmentProof) : List Nat :=
  [GmpMessageType.FulfillmentProof.toByte] ++ m.intent_id ++ m.solver_addr ++
    beBytes 8 m.amount_fulfilled ++ beBytes 8 m.timestamp

/-- `FulfillmentProof::decode`. -/
def FulfillmentProof.decode (data : List Nat) : Except GmpError FulfillmentProof :=
  if data.length ≠ FULFILLMENT_PROOF_SIZE then
    .error (.InvalidLength FULFILLMENT_PROOF_SIZE data.length)
  else if data.headD 0 ≠ GmpMessageType.FulfillmentProof.toByte then
    .error (.InvalidMessageType GmpMessageType.FulfillmentProof.toByte (data.headD 0))
  else
    .ok { intent_id := listSlice data 1 32
          solver_addr := listSlice data 33 32
          amount_fulfilled := fromBe (listSlice data 65 8)
          timestamp := fromBe (listSlice data 73 8) }

/-- `peek_message_type`: read the discriminator without materializing a struct. -/
def peek_message_type (data : List Nat) : Except GmpError GmpMessageType :=
  match data with
  | [] => .error (.InvalidLength 1 0)
  | b :: _ => GmpMessageType.fromByte b

theorem intentRequirements_encode_length (m : IntentRequirements) (h : m.Wf) :
    m.encode.length = INTENT_REQUIREMENTS_SIZE := by
  obtain ⟨⟨hi, _⟩, ⟨hr, _⟩, _, ⟨ht, _⟩, ⟨hs, _⟩, _⟩ := h
  simp [IntentRequirements.encode, length_beBytes, hi, hr, ht, hs,
    INTENT_REQUIREMENTS_SIZE]

theorem escrowConfirmation_encode_length (m : EscrowConfirmation) (h : m.Wf) :
    m.encode.length = ESCROW_CONFIRMATION_SIZE := by
  obtain ⟨⟨hi, _⟩, ⟨he, _⟩, _, ⟨ht, _⟩, ⟨hc, _⟩⟩ := h
  simp [EscrowConfirmation.encode, length_beBytes, hi, he, ht, hc,
    ESCROW_CONFIRMATION_SIZE]

theorem fulfillmentProof_encode_length (m : FulfillmentProof) (h : m.Wf) :
    m.encode.length = FULFILLMENT_PROOF_SIZE := by
  obtain ⟨⟨hi, _⟩, ⟨hs, _⟩, _, _⟩ := h
  simp [FulfillmentProof.encode, length_beBytes, hi, hs, FULFILLMENT_PROOF_SIZE]

theorem intentRequirements_decode_encode (m : IntentRequirements) (h : m.Wf) :
    IntentRequirements.decode m.encode = .ok m := by
  have hlen : m.encode.length = INTENT_REQUIREMENTS_SIZE :=
    intentRequirements_encode_length m h
  obtain ⟨⟨hi, _⟩, ⟨hr, _⟩, ha, ⟨ht, _⟩, ⟨hs, _⟩, he⟩ := h
  have hhead : m.encode.head?.getD 0 = 1 := by
    simp [IntentRequirements.encode, GmpMessageType.toByte]
  have h1 : listSlice m.encode 1 32 = m.intent_id := by
    have hsp : m.encode = [GmpMessageType.IntentRequirements.toByte] ++
        (m.intent_id ++ (m.requester_addr ++ (beBytes 8 m.amount_required ++
          (m.token_addr ++ (m.solver_addr ++ beBytes 8 m.expiry))))) := by
      simp [IntentRequirements.encode, List.append_assoc]
    rw [hsp]
    exact slice_of_concat _ _ _ 1 32 (by simp) hi
  have h2 : listSlice m.encode 33 32 = m.requester_addr := by
    have hsp : m.encode = ([GmpMessageType.IntentRequirements.toByte] ++ m.intent_id) ++
        (m.requester_addr ++ (beBytes 8 m.amount_required ++
          (m.token_addr ++ (m.solver_addr ++ beBytes 8 m.expiry)))) := by
      simp [IntentRequirements.encode, List.append_assoc]
    rw [hsp]
    exact slice_of_concat _ _ _ 33 32 (by simp [hi]) hr
  have h3 : fromBe (listSlice m.encode 65 8) = m.amount_required := by
    have hsp : m.encode = ([GmpMessageType.IntentRequirements.toByte] ++ m.intent_id ++
        m.requester_addr) ++ (beBytes 8 m.amount_required ++
          (m.token_addr ++ (m.solver_addr ++ beBytes 8 m.expiry))) := by
      simp [IntentRequirements.encode, List.append_assoc]
    rw [hsp, slice_of_concat _ _ _ 65 8 (by simp [hi, hr]) (length_beBytes 8 _),
      fromBe_beBytes]
    have h256 : (256 : Nat) ^ 8 = 2 ^ 64 := by norm_num
    rw [h256]
    exact Nat.mod_eq_of_lt ha
  have h4 : listSlice m.encode 73 32 = m.token_addr := by
    have hsp : m.encode = ([GmpMessageType.IntentRequirements.toByte] ++ m.intent_id ++
        m.requester_addr ++ beBytes 8 m.amount_required) ++
        (m.token_addr ++ (m.solver_addr ++ beBytes 8 m.expiry)) := by
      simp [IntentRequirements.encode, List.append_assoc]
    rw [hsp]
    exact slice_of_concat _ _ _ 73 32 (by simp [hi, hr, length_beBytes]) ht
  have h5 : listSlice m.encode 105 32 = m.solver_addr := by
    have hsp : m.encode = ([GmpMessageType.IntentRequirements.toByte] ++ m.intent_id ++
        m.requester_addr ++ beBytes 8 m.amount_required ++ m.token_addr) ++
        (m.solver_addr ++ beBytes 8 m.expiry) := by
      simp [IntentRequirements.encode, List.append_assoc]
    rw [hsp]
    exact slice_of_concat _ _ _ 105 32 (by simp [hi, hr, ht, length_beBytes]) hs
  have h6 : fromBe (listSlice m.encode 137 8) = m.expiry := by
    have hsp : m.encode = ([GmpMessageType.IntentRequirements.toByte] ++ m.intent_id ++
        m.requester_addr ++ beBytes 8 m.amount_required ++ m.token_addr ++
        m.solver_addr) ++ beBytes 8 m.expiry := by
      simp [IntentRequirements.encode, List.append_assoc]
    rw [hsp, slice_of_concat_last _ _ 137 8
      (by simp [hi, hr, ht, hs, length_beBytes]) (length_beBytes 8 _), fromBe_beBytes]
    have h256 : (256 : Nat) ^ 8 = 2 ^ 64 := by norm_num
    rw [h256]
    exact Nat.mod_eq_of_lt he
  simp [IntentRequirements.decode, hlen, hhead, GmpMessageType.toByte,
    h1, h2, h3, h4, h5, h6, INTENT_REQUIREMENTS_SIZE]

theorem escrowConfirmation_decode_encode (m : EscrowConfirmation) (h : m.Wf) :
    EscrowConfirmation.decode m.encode = .ok m := by
  have hlen : m.encode.length = ESCROW_CONFIRMATION_SIZE :=
    escrowConfirmation_encode_length m h
  obtain ⟨⟨hi, _⟩, ⟨hesc, _⟩, ha, ⟨ht, _⟩, ⟨hc, _⟩⟩ := h
  have hhead : m.encode.head?.getD 0 = 2 := by
    simp [EscrowConfirmation.encode, GmpMessageType.toByte]
  have h1 : listSlice m.encode 1 32 = m.intent_id := by
    have hsp : m.encode = [GmpMessageType.EscrowConfirmation.toByte] ++
        (m.intent_id ++ (m.escrow_id ++ (beBytes 8 m.amount_escrowed ++
          (m.token_addr ++ m.creator_addr)))) := by
      simp [EscrowConfirmation.encode, List.append_assoc]
    rw [hsp]
    exact slice_of_concat _ _ _ 1 32 (by simp) hi
  have h2 : listSlice m.encode 33 32 = m.escrow_id := by
    have hsp : m.encode = ([GmpMessageType.EscrowConfirmation.toByte] ++ m.intent_id) ++
        (m.escrow_id ++ (beBytes 8 m.amount_escrowed ++
          (m.token_addr ++ m.creator_addr))) := by
      simp [EscrowConfirmation.encode, List.append_assoc]
    rw [hsp]
    exact slice_of_concat _ _ _ 33 32 (by simp [hi]) hesc
  have h3 : fromBe (listSlice m.encode 65 8) = m.amount_escrowed := by
    have hsp : m.encode = ([GmpMessageType.EscrowConfirmation.toByte] ++ m.intent_id ++
        m.escrow_id) ++ (beBytes 8 m.amount_escrowed ++
          (m.token_addr ++ m.creator_addr)) := by
      simp [EscrowConfirmation.encode, List.append_assoc]
    rw [hsp, slice_of_concat _ _ _ 65 8 (by simp [hi, hesc]) (length_beBytes 8 _),
      fromBe_beBytes]
    have h256 : (256 : Nat) ^ 8 = 2 ^ 64 := by norm_num
    rw [h256]
    exact Nat.mod_eq_of_lt ha
  have h4 : listSlice m.encode 73 32 = m.token_addr := by
    have hsp : m.encode = ([GmpMessageType.EscrowConfirmation.toByte] ++ m.intent_id ++
        m.escrow_id ++ beBytes 8 m.amount_escrowed) ++
        (m.token_addr ++ m.creator_addr) := by
      simp [EscrowConfirmation.encode, List.append_assoc]
    rw [hsp]
    exact slice_of_concat _ _ _ 73 32 (by simp [hi, hesc, length_beBytes]) ht
  have h5 : listSlice m.encode 105 32 = m.creator_addr := by
    have hsp : m.encode = ([GmpMessageType.EscrowConfirmation.toByte] ++ m.intent_id ++
        m.escrow_id ++ beBytes 8 m.amount_escrowed ++ m.token_addr) ++
        m.creator_addr := by
      simp [EscrowConfirmation.encode, List.append_assoc]
    rw [hsp]
    exact slice_of_concat_last _ _ 105 32 (by simp [hi, hesc, ht, length_beBytes]) hc
  simp [EscrowConfirmation.decode, hlen, hhead, GmpMessageType.toByte,
    h1, h2, h3, h4, h5, ESCROW_CONFIRMATION_SIZE]

theorem fulfillmentProof_decode_encode (m : FulfillmentProof) (h : m.Wf) :
    FulfillmentProof.decode m.encode = .ok m := by
  have hlen : m.encode.length = FULFILLMENT_PROOF_SIZE :=
    fulfillmentProof_encode_length m h
  obtain ⟨⟨hi, _⟩, ⟨hs, _⟩, ha, hts⟩ := h
  have hhead : m.encode.head?.getD 0 = 3 := by
    simp [FulfillmentProof.encode, GmpMessageType.toByte]
  have h1 : listSlice m.encode 1 32 = m.intent_id := by
    have hsp : m.encode = [GmpMessageType.FulfillmentProof.toByte] ++
        (m.intent_id ++ (m.solver_addr ++ (beBytes 8 m.amount_fulfilled ++
          beBytes 8 m.timestamp))) := by
      simp [FulfillmentProof.encode, List.append_assoc]
    rw [hsp]
    exact slice_of_concat _ _ _ 1 32 (by simp) hi
  have h2 : listSlice m.encode 33 32 = m.solver_addr := by
    have hsp : m.encode = ([GmpMessageType.FulfillmentProof.toByte] ++ m.intent_id) ++
        (m.solver_addr ++ (beBytes 8 m.amount_fulfilled ++ beBytes 8 m.timestamp)) := by
      simp [FulfillmentProof.encode, List.append_assoc]
    rw [hsp]
    exact slice_of_concat _ _ _ 33 32 (by simp [hi]) hs
  have h3 : fromBe (listSlice m.encode 65 8) = m.amount_fulfilled := by
    have hsp : m.encode = ([GmpMessageType.FulfillmentProof.toByte] ++ m.intent_id ++
        m.solver_addr) ++ (beBytes 8 m.amount_fulfilled ++ beBytes 8 m.timestamp) := by
      simp [FulfillmentProof.encode, List.append_assoc]
    rw [hsp, slice_of_concat _ _ _ 65 8 (by simp [hi, hs]) (length_beBytes 8 _),
      fromBe_beBytes]
    have h256 : (256 : Nat) ^ 8 = 2 ^ 64 := by norm_num
    rw [h256]
    exact Nat.mod_eq_of_lt ha
  have h4 : fromBe (listSlice m.encode 73 8) = m.timestamp := by
    have hsp : m.encode = ([GmpMessageType.FulfillmentProof.toByte] ++ m.intent_id ++
        m.solver_addr ++ beBytes 8 m.amount_fulfilled) ++ beBytes 8 m.timestamp := by
      simp [FulfillmentProof.encode, List.append_assoc]
    rw [hsp, slice_of_concat_last _ _ 73 8
      (by simp [hi, hs, length_beBytes]) (length_beBytes 8 _), fromBe_beBytes]
    have h256 : (256 : Nat) ^ 8 = 2 ^ 64 := by norm_num
    rw [h256]
    exact Nat.mod_eq_of_lt hts
  simp [FulfillmentProof.decode, hlen, hhead, GmpMessageType.toByte,
    h1, h2, h3, h4, FULFILLMENT_PROOF_SIZE]

/-- Claim C6: for every message of each of the three GMP message types, with any
well-formed field values (including amounts 0 and `u64::MAX`), `encode` is total
and produces the type's fixed-size byte buffer (145, 137 and 81 bytes), and
`decode (encode m)` succeeds and returns `m`. -/
theorem c6_gmp_roundtrip :
    (∀ m : IntentRequirements, m.Wf →
      m.encode.length = 145 ∧ IntentRequirements.decode m.encode = .ok m) ∧
    (∀ m : EscrowConfirmation, m.Wf →
      m.encode.length = 137 ∧ EscrowConfirmation.decode m.encode = .ok m) ∧
    (∀ m : FulfillmentProof, m.Wf →
      m.encode.length = 81 ∧ FulfillmentProof.decode m.encode = .ok m) :=
  ⟨fun m h => ⟨intentRequirements_encode_length m h, intentRequirements_decode_encode m h⟩,
   fun m h => ⟨escrowConfirmation_encode_length m h, escrowConfirmation_decode_encode m h⟩,
   fun m h => ⟨fulfillmentProof_encode_length m h, fulfillmentProof_decode_encode m h⟩⟩

/-- A concrete `IntentRequirements` message with `u64::MAX` amounts. -/
def sampleReqMax : IntentRequirements :=
  { intent_id := List.replicate 32 7
    requester_addr := List.replicate 32 9
    amount_required := 18446744073709551615
    token_addr := List.replicate 32 11
    solver_addr := List.replicate 32 13
    expiry := 18446744073709551615 }

/-- A concrete `EscrowConfirmation` message with a zero amount. -/
def sampleConfZero : EscrowConfirmation :=
  { intent_id := List.replicate 32 7
    escrow_id := List.replicate 32 21
    amount_escrowed := 0
    token_addr := List.replicate 32 11
    creator_addr := List.replicate 32 23 }

/-- A concrete `FulfillmentProof` message. -/
def sampleProof : FulfillmentProof :=
  { intent_id := List.replicate 32 7
    solver_addr := List.replicate 32 13
    amount_fulfilled := 1000
    timestamp := 1700000000 }

/-- Witness for C6: the round trip evaluated on concrete messages with max-u64
and zero amounts. -/
theorem c6_gmp_roundtrip_witness :
    (sampleReqMax.encode.length = 145 ∧
      IntentRequirements.decode sampleReqMax.encode = .ok sampleReqMax) ∧
    (sampleConfZero.encode.length = 137 ∧
      EscrowConfirmation.decode sampleConfZero.encode = .ok sampleConfZero) ∧
    (sampleProof.encode.length = 81 ∧
      FulfillmentProof.decode sampleProof.encode = .ok sampleProof) :=
  ⟨c6_gmp_roundtrip.1 sampleReqMax (by decide),
   c6_gmp_roundtrip.2.1 sampleConfZero (by decide),
   c6_gmp_roundtrip.2.2 sampleProof (by decide)⟩

/-- Claim C5 (amended): a 144-byte buffer decoded as `IntentRequirements` fails
with `InvalidLength (expected 145) (got 144)`; a buffer of the correct length
145 whose first byte is the `EscrowConfirmation` discriminator 0x02 fails with
`InvalidMessageType (expected 0x01) (got 0x02)`; and no encoded message of one
of the three GMP types is ever successfully decoded as a different type (for
buffers of the wrong fixed size the reported error is `InvalidLength`). -/
theorem c5_decode_rejection :
    (∀ data : List Nat, data.length = 144 →
      IntentRequirements.decode data = .error (.InvalidLength 145 144)) ∧
    (∀ data : List Nat, data.length = 145 → data.headD 0 = 2 →
      IntentRequirements.decode data = .error (.InvalidMessageType 1 2)) ∧
    (∀ m : IntentRequirements, m.Wf →
      EscrowConfirmation.decode m.encode = .error (.InvalidLength 137 145) ∧
      FulfillmentProof.decode m.encode = .error (.InvalidLength 81 145)) ∧
    (∀ m : EscrowConfirmation, m.Wf →
      IntentRequirements.decode m.encode = .error (.InvalidLength 145 137) ∧
      FulfillmentProof.decode m.encode = .error (.InvalidLength 81 137)) ∧
    (∀ m : FulfillmentProof, m.Wf →
      IntentRequirements.decode m.encode = .error (.InvalidLength 145 81) ∧
      EscrowConfirmation.decode m.encode = .error (.InvalidLength 137 81)) := by
  refine ⟨?_, ?_, ?_, ?_, ?_⟩
  · intro data hlen
    simp [IntentRequirements.decode, hlen, INTENT_REQUIREMENTS_SIZE]
  · intro data hlen hhead
    simp only [List.headD_eq_head?_getD] at hhead
    simp [IntentRequirements.decode, hlen, hhead, INTENT_REQUIREMENTS_SIZE,
      GmpMessageType.toByte]
  · intro m h
    have hlen := intentRequirements_encode_length m h
    rw [INTENT_REQUIREMENTS_SIZE] at hlen
    constructor
    · simp [EscrowConfirmation.decode, hlen, ESCROW_CONFIRMATION_SIZE]
    · simp [FulfillmentProof.decode, hlen, FULFILLMENT_PROOF_SIZE]
  · intro m h
    have hlen := escrowConfirmation_encode_length m h
    rw [ESCROW_CONFIRMATION_SIZE] at hlen
    constructor
    · simp [IntentRequirements.decode, hlen, INTENT_REQUIREMENTS_SIZE]
    · simp [FulfillmentProof.decode, hlen, FULFILLMENT_PROOF_SIZE]
  · intro m h
    have hlen := fulfillmentProof_encode_length m h
    rw [FULFILLMENT_PROOF_SIZE] at hlen
    constructor
    · simp [IntentRequirements.decode, hlen, INTENT_REQUIREMENTS_SIZE]
    · simp [EscrowConfirmation.decode, hlen, ESCROW_CONFIRMATION_SIZE]

/-- Counterexample to C5 as stated: the claim asserts that decoding any buffer
whose first byte is 0x02 as `IntentRequirements` fails with
`InvalidMessageType`, but the one-element buffer `[0x02]` (and likewise the
137-byte encoding of any `EscrowConfirmation`) fails with `InvalidLength`
instead, because the length check runs before the discriminator check. -/
theorem c5_counterexample :
    IntentRequirements.decode [2] = .error (.InvalidLength 145 1) ∧
    GmpError.InvalidLength 145 1 ≠ GmpError.InvalidMessageType 1 2 := by
  constructor
  · rfl
  · decide

/-- Witness for C5 (amended): the rejections evaluated on concrete buffers. -/
theorem c5_decode_rejection_witness :
    IntentRequirements.decode (List.replicate 144 0) =
      .error (.InvalidLength 145 144) ∧
    IntentRequirements.decode (2 :: List.replicate 144 0) =
      .error (.InvalidMessageType 1 2) ∧
    EscrowConfirmation.decode sampleReqMax.encode =
      .error (.InvalidLength 137 145) :=
  ⟨c5_decode_rejection.1 _ (by simp),
   c5_decode_rejection.2.1 _ (by simp) rfl,
   (c5_decode_rejection.2.2.1 sampleReqMax (by decide)).1⟩

/-! ### Escrow state machine

Embedding of `src/intent-frameworks/svm/programs/intent_escrow/src/processor.rs`.
A Solana `Pubkey` is modelled by its 32-byte value; account/PDA addressing,
rent and the SPL token CPI mechanics are out of scope (per the specification),
so each instruction is modelled as a pure function from the deserialized
account contents and the clock to either an error or the updated contents,
with the performed token transfer recorded in the result. -/

/-- A Solana public key, as its 32-byte value. -/
abbrev Pubkey := List Nat

/-- `Pubkey::default()`, the all-zero key. -/
def zeroPubkey : Pubkey := List.replicate 32 0

/-- The escrow account state (`state::Escrow`). -/
structure Escrow where
  requester : Pubkey
  token_mint : Pubkey
  amount : Nat
  is_claimed : Bool
  expiry : Int
  reserved_solver : Pubkey
  intent_id : List Nat
  bump : Nat
deriving DecidableEq, Repr

/-- The stored GMP requirements account state (`state::StoredIntentRequirements`). -/
structure StoredIntentRequirements where
  intent_id : List Nat
  requester_addr : List Nat
  amount_required : Nat
  token_addr : List Nat
  solver_addr : List Nat
  expiry : Nat
  escrow_created : Bool
  fulfilled : Bool
deriving DecidableEq, Repr

/-- The escrow program's error codes (`error::EscrowError`, with the
system-level missing-signature error included). -/
inductive EscrowError
  | EscrowAlreadyClaimed
  | EscrowDoesNotExist
  | NoDeposit
  | UnauthorizedRequester
  | EscrowExpired
  | EscrowNotExpiredYet
  | InvalidAmount
  | InvalidSolver
  | EscrowAlreadyExists
  | InvalidGmpMessage
  | RequirementsNotFound
  | RequirementsAlreadyExist
  | AmountMismatch
  | TokenMismatch
  | EscrowAlreadyCreated
  | AlreadyFulfilled
  | UnauthorizedGmpSource
  | MissingRequiredSignature
deriving DecidableEq, Repr

/-- Default expiry duration in seconds. The crate root defining this constant
is not part of the extracted tree; the sibling implementation
(`src/svm-intent-framework/programs/intent_escrow/src/lib.rs`) sets it to 120
seconds; no claim depends on the exact (positive) value. -/
def DEFAULT_EXPIRY_DURATION : Int := 120

/-- Result of a successful `CreateEscrow`: the initialized escrow account and
the (possibly updated) requirements account. -/
structure CreateOutcome where
  escrow : Escrow
  requirements : Option StoredIntentRequirements
deriving DecidableEq, Repr

/-- Result of a successful `Claim`/`Cancel`: the tokens transferred out of the
vault and the updated escrow account. -/
structure ClaimOutcome where
  transferred : Nat
  escrow : Escrow
deriving DecidableEq, Repr

/-- Result of a successful `LzReceiveFulfillmentProof`: the tokens transferred
to the solver and both updated accounts. -/
structure FulfillmentOutcome where
  transferred : Nat
  escrow : Escrow
  requirements : StoredIntentRequirements
deriving DecidableEq, Repr

/-- `Processor::process_create_escrow`. `requirements` is the content of the
optional requirements PDA (`none` when absent or empty), `escrow_exists`
states whether a valid escrow account for this `intent_id` already exists,
and `now` is `Clock::get()?.unix_timestamp`. -/
def process_create_escrow (intent_id : List Nat) (amount : Nat)
    (expiry_duration : Option Int) (reserved_solver requester : Pubkey)
    (requester_is_signer : Bool) (token_mint : Pubkey)
    (requirements : Option StoredIntentRequirements) (escrow_exists : Bool)
    (now : Int) (bump : Nat) : Except EscrowError CreateOutcome :=
  if amount = 0 then .error .InvalidAmount
  else if reserved_solver = zeroPubkey then .error .InvalidSolver
  else if !requester_is_signer then .error .MissingRequiredSignature
  else
    let checkReq : Except EscrowError Unit :=
      match requirements with
      | none => .ok ()
      | some req =>
        if req.escrow_created then .error .EscrowAlreadyCreated
        else if amount < req.amount_required then .error .AmountMismatch
        else if token_mint ≠ req.token_addr then .error .TokenMismatch
        else .ok ()
    match checkReq with
    | .error e => .error e
    | .ok () =>
      if escrow_exists then .error .EscrowAlreadyExists
      else
        let duration := expiry_duration.getD DEFAULT_EXPIRY_DURATION
        let duration := if duration ≤ 0 then DEFAULT_EXPIRY_DURATION else duration
        .ok { escrow := { requester := requester
                          token_mint := token_mint
                          amount := amount
                          is_claimed := false
                          expiry := now + duration
                          reserved_solver := reserved_solver
                          intent_id := intent_id
                          bump := bump }
              requirements := requirements.map (fun req => { req with escrow_created := true }) }

/-- `Processor::process_claim` (GMP mode, no signature). `requirements` is the
content of the requirements PDA (`none` when deserialization fails). -/
def process_claim (intent_id : List Nat)
    (requirements : Option StoredIntentRequirements)
    (escrow : Escrow) (now : Int) : Except EscrowError ClaimOutcome :=
  match requirements with
  | none => .error .RequirementsNotFound
  | some req =>
    if !req.fulfilled then .error .AlreadyFulfilled
    else if escrow.intent_id ≠ intent_id then .error .EscrowDoesNotExist
    else if escrow.is_claimed then .error .EscrowAlreadyClaimed
    else if escrow.amount = 0 then .error .NoDeposit
    else if now > escrow.expiry then .error .EscrowExpired
    else .ok { transferred := escrow.amount
               escrow := { escrow with is_claimed := true, amount := 0 } }

/-- `Processor::process_cancel`. -/
def process_cancel (intent_id : List Nat) (escrow : Escrow)
    (requester : Pubkey) (requester_is_signer : Bool) (now : Int) :
    Except EscrowError ClaimOutcome :=
  if escrow.intent_id ≠ intent_id then .error .EscrowDoesNotExist
  else if escrow.is_claimed then .error .EscrowAlreadyClaimed
  else if escrow.amount = 0 then .error .NoDeposit
  else if escrow.requester ≠ requester then .error .UnauthorizedRequester
  else if !requester_is_signer then .error .MissingRequiredSignature
  else if now ≤ escrow.expiry then .error .EscrowNotExpiredYet
  else .ok { transferred := escrow.amount
             escrow := { escrow with is_claimed := true, amount := 0 } }

/-- `Processor::process_lz_receive_fulfillment_proof`. Note that the function
reads no clock: the auto-release path has no expiry guard. -/
def process_lz_receive_fulfillment_proof (gmp_caller_is_signer : Bool)
    (payload : List Nat) (requirements : Option StoredIntentRequirements)
    (escrow : Escrow) : Except EscrowError FulfillmentOutcome :=
  if !gmp_caller_is_signer then .error .UnauthorizedGmpSource
  else
    match FulfillmentProof.decode payload with
    | .error _ => .error .InvalidGmpMessage
    | .ok proof =>
      match requirements with
      | none => .error .RequirementsNotFound
      | some req =>
        if req.fulfilled then .error .AlreadyFulfilled
        else if escrow.intent_id ≠ proof.intent_id then .error .EscrowDoesNotExist
        else if escrow.is_claimed then .error .EscrowAlreadyClaimed
        else if escrow.amount = 0 then .error .NoDeposit
        else .ok { transferred := escrow.amount
                   escrow := { escrow with is_claimed := true, amount := 0 }
                   requirements := { req with fulfilled := true } }

/-- Claim C2: Claim at time `t` fails with `EscrowExpired` exactly when
`t > expiry` (so Claim at `t = expiry` still succeeds, all other guards
passing), Cancel at time `t` fails with `EscrowNotExpiredYet` exactly when
`t ≤ expiry`; Claim fails with `EscrowDoesNotExist` when no escrow matches the
intent id, `EscrowAlreadyClaimed` when already claimed, `NoDeposit` when the
amount is zero; Cancel fails with `UnauthorizedRequester` when the caller is
not the original requester. -/
theorem c2_claim_cancel_guards (intent_id : List Nat)
    (req : StoredIntentRequirements) (escrow : Escrow) (caller : Pubkey)
    (t : Int) (hful : req.fulfilled = true) :
    (escrow.intent_id = intent_id → escrow.is_claimed = false →
      escrow.amount ≠ 0 →
      ((process_claim intent_id (some req) escrow t = .error .EscrowExpired ↔
          t > escrow.expiry) ∧
       (t ≤ escrow.expiry →
         process_claim intent_id (some req) escrow t =
           .ok { transferred := escrow.amount
                 escrow := { escrow with is_claimed := true, amount := 0 } }))) ∧
    (escrow.intent_id ≠ intent_id →
      process_claim intent_id (some req) escrow t = .error .EscrowDoesNotExist) ∧
    (escrow.intent_id = intent_id → escrow.is_claimed = true →
      process_claim intent_id (some req) escrow t = .error .EscrowAlreadyClaimed) ∧
    (escrow.intent_id = intent_id → escrow.is_claimed = false →
      escrow.amount = 0 →
      process_claim intent_id (some req) escrow t = .error .NoDeposit) ∧
    (escrow.intent_id = intent_id → escrow.is_claimed = false →
      escrow.amount ≠ 0 → escrow.requester = caller →
      (process_cancel intent_id escrow caller true t = .error .EscrowNotExpiredYet ↔
        t ≤ escrow.expiry)) ∧
    (escrow.intent_id = intent_id → escrow.is_claimed = false →
      escrow.amount ≠ 0 → escrow.requester ≠ caller →
      process_cancel intent_id escrow caller true t = .error .UnauthorizedRequester) := by
  refine ⟨?_, ?_, ?_, ?_, ?_, ?_⟩
  · intro hid hcl hamt
    constructor
    · by_cases hexp : t > escrow.expiry
      · simp [process_claim, hful, hid, hcl, hamt, hexp]
      · simp [process_claim, hful, hid, hcl, hamt, hexp]
    · intro hle
      have hexp : ¬ t > escrow.expiry := by omega
      simp [process_claim, hful, hid, hcl, hamt, hexp]
  · intro hid
    simp [process_claim, hful, hid]
  · intro hid hcl
    simp [process_claim, hful, hid, hcl]
  · intro hid hcl hamt
    simp [process_claim, hful, hid, hcl, hamt]
  · intro hid hcl hamt hreq
    by_cases hle : t ≤ escrow.expiry
    · simp [process_cancel, hid, hcl, hamt, hreq, hle]
    · simp [process_cancel, hid, hcl, hamt, hreq, hle]
  · intro hid hcl hamt hreq
    simp [process_cancel, hid, hcl, hamt, hreq]

/-- A concrete escrow used to evaluate the state-machine theorems. -/
def sampleEscrow : Escrow :=
  { requester := List.replicate 32 1
    token_mint := List.replicate 32 11
    amount := 1000
    is_claimed := false
    expiry := 500
    reserved_solver := List.replicate 32 13
    intent_id := List.replicate 32 7
    bump := 255 }

/-- A concrete stored-requirements record whose fulfillment proof has been
received. -/
def sampleStoredReq : StoredIntentRequirements :=
  { intent_id := List.replicate 32 7
    requester_addr := List.replicate 32 1
    amount_required := 1000
    token_addr := List.replicate 32 11
    solver_addr := List.replicate 32 13
    expiry := 500
    escrow_created := true
    fulfilled := true }

/-- Witness for C2: Claim succeeds exactly at the expiry instant and Cancel at
that instant fails with `EscrowNotExpiredYet`. -/
theorem c2_claim_cancel_guards_witness :
    process_claim sampleEscrow.intent_id (some sampleStoredReq) sampleEscrow 500 =
      .ok { transferred := 1000
            escrow := { sampleEscrow with is_claimed := true, amount := 0 } } ∧
    process_cancel sampleEscrow.intent_id sampleEscrow sampleEscrow.requester true 500 =
      .error .EscrowNotExpiredYet :=
  ⟨((c2_claim_cancel_guards sampleEscrow.intent_id sampleStoredReq sampleEscrow
      sampleEscrow.requester 500 rfl).1 rfl rfl (by decide)).2 (by decide),
   ((c2_claim_cancel_guards sampleEscrow.intent_id sampleStoredReq sampleEscrow
      sampleEscrow.requester 500 rfl).2.2.2.2.1 rfl rfl (by decide) rfl).mpr
      (by decide)⟩

/-- Claim C3: `CreateEscrow` fails with `InvalidAmount` on a zero amount and
`InvalidSolver` on the zero solver address; against stored GMP requirements it
fails with `EscrowAlreadyCreated`, `AmountMismatch` (amount below the
requirement) or `TokenMismatch`, and on success marks
`requirements.escrow_created = true`; the expiry is `now` plus the supplied
duration, a non-positive supplied duration falling back to the default, so the
expiry always lies strictly in the future. -/
theorem c3_create_escrow_guards (intent_id : List Nat) (amount : Nat)
    (dur : Option Int) (solver requester token : Pubkey)
    (req : StoredIntentRequirements)
    (reqOpt : Option StoredIntentRequirements) (ex : Bool) (now : Int)
    (bump : Nat) :
    (amount = 0 →
      process_create_escrow intent_id amount dur solver requester true token
        reqOpt ex now bump = .error .InvalidAmount) ∧
    (amount ≠ 0 → solver = zeroPubkey →
      process_create_escrow intent_id amount dur solver requester true token
        reqOpt ex now bump = .error .InvalidSolver) ∧
    (amount ≠ 0 → solver ≠ zeroPubkey → req.escrow_created = true →
      process_create_escrow intent_id amount dur solver requester true token
        (some req) ex now bump = .error .EscrowAlreadyCreated) ∧
    (amount ≠ 0 → solver ≠ zeroPubkey → req.escrow_created = false →
      amount < req.amount_required →
      process_create_escrow intent_id amount dur solver requester true token
        (some req) ex now bump = .error .AmountMismatch) ∧
    (amount ≠ 0 → solver ≠ zeroPubkey → req.escrow_created = false →
      ¬ amount < req.amount_required → token ≠ req.token_addr →
      process_create_escrow intent_id amount dur solver requester true token
        (some req) ex now bump = .error .TokenMismatch) ∧
    (∀ out, process_create_escrow intent_id amount dur solver requester true token
        (some req) ex now bump = .ok out →
      out.requirements = some { req with escrow_created := true }) ∧
    (∀ out, process_create_escrow intent_id amount dur solver requester true token
        reqOpt ex now bump = .ok out →
      (out.escrow.expiry =
        now + (if (dur.getD DEFAULT_EXPIRY_DURATION) ≤ 0 then
          DEFAULT_EXPIRY_DURATION else dur.getD DEFAULT_EXPIRY_DURATION)) ∧
      out.escrow.expiry > now) ∧
    (∀ d, dur = some d → d ≤ 0 →
      ∀ out, process_create_escrow intent_id amount dur solver requester true token
        reqOpt ex now bump = .ok out →
      out.escrow.expiry = now + DEFAULT_EXPIRY_DURATION) := by
  refine ⟨?_, ?_, ?_, ?_, ?_, ?_, ?_, ?_⟩
  · intro h0
    simp [process_create_escrow, h0]
  · intro h0 hz
    simp [process_create_escrow, h0, hz]
  · intro h0 hz hc
    simp [process_create_escrow, h0, hz, hc]
  · intro h0 hz hc hlt
    simp [process_create_escrow, h0, hz, hc, hlt]
  · intro h0 hz hc hlt ht
    simp [process_create_escrow, h0, hz, hc, hlt, ht]
  · intro out hout
    by_cases h0 : amount = 0
    · simp [process_create_escrow, h0] at hout
    by_cases hz : solver = zeroPubkey
    · simp [process_create_escrow, h0, hz] at hout
    by_cases hc : req.escrow_created
    · simp [process_create_escrow, h0, hz, hc] at hout
    by_cases hlt : amount < req.amount_required
    · simp [process_create_escrow, h0, hz, hc, hlt] at hout
    by_cases ht : token = req.token_addr
    · by_cases hex : ex
      · simp [process_create_escrow, h0, hz, hc, hlt, ht, hex] at hout
      · simp [process_create_escrow, h0, hz, hc, hlt, ht, hex] at hout
        rw [← hout]
    · simp [process_create_escrow, h0, hz, hc, hlt, ht] at hout
  · intro out hout
    by_cases h0 : amount = 0
    · simp [process_create_escrow, h0] at hout
    by_cases hz : solver = zeroPubkey
    · simp [process_create_escrow, h0, hz] at hout
    have hdur : ∀ x : Int,
        (0 : Int) < (if x ≤ 0 then DEFAULT_EXPIRY_DURATION else x) := by
      intro x
      unfold DEFAULT_EXPIRY_DURATION
      split <;> omega
    rcases reqOpt with _ | req'
    · by_cases hex : ex
      · simp [process_create_escrow, h0, hz, hex] at hout
      · simp [process_create_escrow, h0, hz, hex] at hout
        rw [← hout]
        refine ⟨rfl, ?_⟩
        simpa using lt_add_of_pos_right now (hdur _)
    · by_cases hc : req'.escrow_created
      · simp [process_create_escrow, h0, hz, hc] at hout
      by_cases hlt : amount < req'.amount_required
      · simp [process_create_escrow, h0, hz, hc, hlt] at hout
      by_cases ht : token = req'.token_addr
      · by_cases hex : ex
        · simp [process_create_escrow, h0, hz, hc, hlt, ht, hex] at hout
        · simp [process_create_escrow, h0, hz, hc, hlt, ht, hex] at hout
          rw [← hout]
          refine ⟨rfl, ?_⟩
          simpa using lt_add_of_pos_right now (hdur _)
      · simp [process_create_escrow, h0, hz, hc, hlt, ht] at hout
  · intro d hd hd0 out hout
    by_cases h0 : amount = 0
    · simp [process_create_escrow, h0] at hout
    by_cases hz : solver = zeroPubkey
    · simp [process_create_escrow, h0, hz] at hout
    subst hd
    rcases reqOpt with _ | req'
    · by_cases hex : ex
      · simp [process_create_escrow, h0, hz, hex] at hout
      · simp [process_create_escrow, h0, hz, hex] at hout
        rw [← hout]
        simp [hd0]
    · by_cases hc : req'.escrow_created
      · simp [process_create_escrow, h0, hz, hc] at hout
      by_cases hlt : amount < req'.amount_required
      · simp [process_create_escrow, h0, hz, hc, hlt] at hout
      by_cases ht : token = req'.token_addr
      · by_cases hex : ex
        · simp [process_create_escrow, h0, hz, hc, hlt, ht, hex] at hout
        · simp [process_create_escrow, h0, hz, hc, hlt, ht, hex] at hout
          rw [← hout]
          simp [hd0]
      · simp [process_create_escrow, h0, hz, hc, hlt, ht] at hout

/-- The outcome of a concrete `CreateEscrow` with a negative supplied duration:
the expiry falls back to the default duration. -/
def sampleCreateOutcome : CreateOutcome :=
  { escrow := { requester := List.replicate 32 1
                token_mint := List.replicate 32 11
                amount := 1000
                is_claimed := false
                expiry := 120
                reserved_solver := List.replicate 32 13
                intent_id := List.replicate 32 7
                bump := 255 }
    requirements := none }

/-- Witness for C3: a zero amount is rejected with `InvalidAmount`, and a
negative supplied duration falls back to the default expiry duration. -/
theorem c3_create_escrow_guards_witness :
    process_create_escrow (List.replicate 32 7) 0 none (List.replicate 32 13)
      (List.replicate 32 1) true (List.replicate 32 11) none false 0 255 =
      .error .InvalidAmount ∧
    sampleCreateOutcome.escrow.expiry = 0 + DEFAULT_EXPIRY_DURATION :=
  ⟨(c3_create_escrow_guards (List.replicate 32 7) 0 none (List.replicate 32 13)
      (List.replicate 32 1) (List.replicate 32 11) sampleStoredReq none false
      0 255).1 rfl,
   (c3_create_escrow_guards (List.replicate 32 7) 1000 (some (-5))
      (List.replicate 32 13) (List.replicate 32 1) (List.replicate 32 11)
      sampleStoredReq none false 0 255).2.2.2.2.2.2.2 (-5) rfl (by decide)
      sampleCreateOutcome (by rfl)⟩

/-- Claim C4: GMP fulfillment intake fails with `RequirementsNotFound` when the
stored requirements are missing, `AlreadyFulfilled` when already fulfilled, and
`EscrowDoesNotExist` when the escrow's intent id differs from the proof's; on
success one single step transfers the full escrow amount to the solver and sets
`is_claimed`, zeroes the amount and sets `fulfilled`. -/
theorem c4_lz_receive_fulfillment (payload : List Nat)
    (proof : FulfillmentProof) (req : StoredIntentRequirements)
    (escrow : Escrow) (hdec : FulfillmentProof.decode payload = .ok proof) :
    (process_lz_receive_fulfillment_proof true payload none escrow =
      .error .RequirementsNotFound) ∧
    (req.fulfilled = true →
      process_lz_receive_fulfillment_proof true payload (some req) escrow =
        .error .AlreadyFulfilled) ∧
    (req.fulfilled = false → escrow.intent_id ≠ proof.intent_id →
      process_lz_receive_fulfillment_proof true payload (some req) escrow =
        .error .EscrowDoesNotExist) ∧
    (req.fulfilled = false → escrow.intent_id = proof.intent_id →
      escrow.is_claimed = false → escrow.amount ≠ 0 →
      process_lz_receive_fulfillment_proof true payload (some req) escrow =
        .ok { transferred := escrow.amount
              escrow := { escrow with is_claimed := true, amount := 0 }
              requirements := { req with fulfilled := true } }) := by
  refine ⟨?_, ?_, ?_, ?_⟩
  · simp [process_lz_receive_fulfillment_proof, hdec]
  · intro hf
    simp [process_lz_receive_fulfillment_proof, hdec, hf]
  · intro hf hid
    simp [process_lz_receive_fulfillment_proof, hdec, hf, hid]
  · intro hf hid hcl hamt
    simp [process_lz_receive_fulfillment_proof, hdec, hf, hid, hcl, hamt]

/-- Witness for C4: the auto-release evaluated on a concrete proof, escrow and
requirements record. -/
theorem c4_lz_receive_fulfillment_witness :
    process_lz_receive_fulfillment_proof true sampleProof.encode
      (some { sampleStoredReq with fulfilled := false }) sampleEscrow =
      .ok { transferred := 1000
            escrow := { sampleEscrow with is_claimed := true, amount := 0 }
            requirements := sampleStoredReq } :=
  (c4_lz_receive_fulfillment sampleProof.encode sampleProof
    { sampleStoredReq with fulfilled := false } sampleEscrow
    (fulfillmentProof_decode_encode sampleProof (by decide))).2.2.2 rfl rfl rfl (by decide)

/-- Claim C7 (amended): in GMP mode, `Claim` is authorized only by stored
requirements whose `fulfilled` flag is true — it fails with the error code
named `AlreadyFulfilled` exactly whenever `fulfilled` is false — and when the
proof was already consumed (the escrow already claimed) it fails with
`EscrowAlreadyClaimed`. -/
theorem c7_gmp_claim_authorization (intent_id : List Nat)
    (req : StoredIntentRequirements) (escrow : Escrow) (t : Int) :
    (req.fulfilled = false →
      process_claim intent_id (some req) escrow t = .error .AlreadyFulfilled) ∧
    (∀ out, process_claim intent_id (some req) escrow t = .ok out →
      req.fulfilled = true) ∧
    (req.fulfilled = true → escrow.intent_id = intent_id →
      escrow.is_claimed = true →
      process_claim intent_id (some req) escrow t =
        .error .EscrowAlreadyClaimed) := by
  refine ⟨?_, ?_, ?_⟩
  · intro hf
    simp [process_claim, hf]
  · intro out hout
    by_cases hf : req.fulfilled
    · exact hf
    · simp [process_claim, hf] at hout
  · intro hf hid hcl
    simp [process_claim, hf, hid, hcl]

/-- Counterexample to C7 as stated: when the fulfillment proof was already
consumed (the escrow is already claimed), `Claim` fails with
`EscrowAlreadyClaimed`, not with the `AlreadyFulfilled` guard; the error code
named `AlreadyFulfilled` is raised instead when `fulfilled` is still false. -/
theorem c7_counterexample :
    process_claim sampleEscrow.intent_id (some sampleStoredReq)
      { sampleEscrow with is_claimed := true } 100 =
      .error .EscrowAlreadyClaimed ∧
    EscrowError.EscrowAlreadyClaimed ≠ EscrowError.AlreadyFulfilled :=
  ⟨rfl, by decide⟩

/-- Witness for C7 (amended): both failure modes evaluated on concrete states. -/
theorem c7_gmp_claim_authorization_witness :
    process_claim sampleEscrow.intent_id
      (some { sampleStoredReq with fulfilled := false }) sampleEscrow 100 =
      .error .AlreadyFulfilled ∧
    process_claim sampleEscrow.intent_id (some sampleStoredReq)
      { sampleEscrow with is_claimed := true } 100 =
      .error .EscrowAlreadyClaimed :=
  ⟨(c7_gmp_claim_authorization sampleEscrow.intent_id
      { sampleStoredReq with fulfilled := false } sampleEscrow 100).1 rfl,
   (c7_gmp_claim_authorization sampleEscrow.intent_id sampleStoredReq
      { sampleEscrow with is_claimed := true } 100).2.2 rfl rfl rfl⟩

/-- Claim C10 (implicit): the GMP auto-release path performs no expiry check —
for a live escrow with unfulfilled matching requirements,
`LzReceiveFulfillmentProof` succeeds and transfers the funds even at a time
strictly past the escrow's expiry, while `Claim` at the same time fails with
`EscrowExpired`. -/
theorem c10_auto_release_ignores_expiry (payload : List Nat)
    (proof : FulfillmentProof) (req reqF : StoredIntentRequirements)
    (escrow : Escrow) (t : Int)
    (hdec : FulfillmentProof.decode payload = .ok proof)
    (hnf : req.fulfilled = false) (hmatch : escrow.intent_id = proof.intent_id)
    (hnc : escrow.is_claimed = false) (hamt : escrow.amount ≠ 0)
    (hfF : reqF.fulfilled = true) (hexp : t > escrow.expiry) :
    process_lz_receive_fulfillment_proof true payload (some req) escrow =
      .ok { transferred := escrow.amount
            escrow := { escrow with is_claimed := true, amount := 0 }
            requirements := { req with fulfilled := true } } ∧
    process_claim proof.intent_id (some reqF) escrow t =
      .error .EscrowExpired := by
  constructor
  · simp [process_lz_receive_fulfillment_proof, hdec, hnf, hmatch, hnc, hamt]
  · simp [process_claim, hfF, hmatch, hnc, hamt, hexp]

/-- Witness for C10: at time 501, one past the sample escrow's expiry of 500,
the auto-release succeeds while `Claim` fails with `EscrowExpired`. -/
theorem c10_auto_release_ignores_expiry_witness :
    process_lz_receive_fulfillment_proof true sampleProof.encode
      (some { sampleStoredReq with fulfilled := false }) sampleEscrow =
      .ok { transferred := 1000
            escrow := { sampleEscrow with is_claimed := true, amount := 0 }
            requirements := sampleStoredReq } ∧
    process_claim sampleProof.intent_id (some sampleStoredReq) sampleEscrow 501 =
      .error .EscrowExpired :=
  c10_auto_release_ignores_expiry sampleProof.encode sampleProof
    { sampleStoredReq with fulfilled := false } sampleStoredReq sampleEscrow 501
    (fulfillmentProof_decode_encode sampleProof (by decide)) rfl rfl rfl (by decide) rfl
    (by decide)

/-! ### Inflow fulfillment validator

Embedding of `src/trusted-verifier/src/validator/inflow_generic.rs`. The
chain-specific solver sub-validators (`inflow_evm`/`inflow_mvm`, which perform
the registry query) are not part of the extracted tree; they are abstracted as
an oracle argument returning either a `ValidationResult` or a query error, as
the specification's §4.5 describes. A metadata string is modelled by whether it
parses as a JSON object with a string `inner` field. -/

/-- Chain runtime kinds (`monitor::ChainType`). -/
inductive ChainType
  | Evm
  | Mvm
  | Svm
deriving DecidableEq, Repr

/-- A metadata string as seen by `serde_json`: either a JSON object carrying a
string `inner` field, or anything else (kept as the raw string). -/
inductive Metadata
  | jsonInner (inner : String)
  | plain (raw : String)
deriving DecidableEq, Repr

/-- The raw textual form of a metadata value. -/
def Metadata.render : Metadata → String
  | .jsonInner s => "\x7b\"inner\":\"" ++ s ++ "\"\x7d"
  | .plain s => s

/-- ASCII lowercasing of a string, the model of Rust `to_lowercase`. -/
def strLower (s : String) : String :=
  String.mk (s.data.map Char.toLower)

/-- Strip an optional leading `0x`; Rust
`inner.strip_prefix("0x").unwrap_or(inner)`. -/
def strip0x (s : String) : String :=
  match s.data with
  | '0' :: 'x' :: rest => String.mk rest
  | _ => s

/-- `normalize_metadata_for_comparison`: extract the `inner` address of a
JSON-wrapped metadata string, strip the `0x` prefix, remove leading zeros
(keeping at least one digit), lowercase and re-prefix; anything that is not
JSON-wrapped falls back to plain lowercasing. -/
def normalize_metadata_for_comparison (metadata : Metadata) : String :=
  match metadata with
  | .jsonInner inner =>
    let addr_no_prefix := strip0x inner
    let addr_trimmed := addr_no_prefix.data.dropWhile (fun c => c = '0')
    let addr_trimmed := if addr_trimmed.isEmpty then ['0'] else addr_trimmed
    "0x" ++ strLower (String.mk addr_trimmed)
  | .plain s => strLower s

/-- The intent event observed on the hub chain (the fields the inflow
validator reads). -/
structure IntentEvent where
  intent_id : String
  offered_amount : Nat
  offered_metadata : Metadata
  desired_amount : Nat
  connected_chain_id : Option Nat
  reserved_solver_addr : Option String
deriving DecidableEq, Repr

/-- The escrow event observed on a connected chain (the fields the inflow
validator reads). -/
structure EscrowEvent where
  escrow_id : String
  offered_amount : Nat
  offered_metadata : Metadata
  desired_amount : Nat
  chain_id : Nat
  chain_type : ChainType
  reserved_solver_addr : Option String
deriving DecidableEq, Repr

/-- `ValidationResult`: always returned, never thrown, for business-rule
failures. -/
structure ValidationResult where
  valid : Bool
  message : String
  timestamp : Nat
deriving DecidableEq, Repr

/-- Rendering of Rust `Option` debug output used in a validator message. -/
def optRender : Option String → String
  | none => "None"
  | some s => "Some(" ++ s ++ ")"

def amountMismatchMsg (got expected : Nat) : String :=
  "Escrow offered amount " ++ toString got ++
    " does not match hub intent offered amount " ++ toString expected

def metadataMismatchMsg (e i : Metadata) (en inorm : String) : String :=
  "Escrow offered metadata '" ++ e.render ++
    "' does not match hub intent offered metadata '" ++ i.render ++
    "' (normalized: '" ++ en ++ "' vs '" ++ inorm ++ "')"

def chainIdMismatchMsg (got expected : Nat) : String :=
  "Escrow chain_id " ++ toString got ++
    " does not match hub intent offered_chain_id " ++ toString expected ++
    ". Escrow was discovered on chain " ++ toString got ++
    " but intent specifies chain " ++ toString expected

def desiredAmountMsg (got : Nat) : String :=
  "Escrow desired amount must be 0, but got " ++ toString got ++
    ". Escrow only holds offered funds; the actual requirement is specified in the hub intent"

def reservationMismatchMsg (e i : Option String) : String :=
  "Escrow and intent reservation mismatch: escrow reserved_solver=" ++
    optRender e ++ ", intent solver=" ++ optRender i

def noConnectedChainMsg : String :=
  "Request-intent must specify connected_chain_id for escrow validation"

def validationSuccessMsg : String :=
  "Request-intent fulfillment validation successful"

/-- `validate_intent_fulfillment`. The `oracle` argument stands for the
chain-specific solver sub-validator (`validate_evm_escrow_solver` or
`validate_mvm_escrow_solver`): it receives whether the escrow chain is EVM and
the escrow's reserved solver address, and returns the sub-validation's
`ValidationResult`, or an error when the registry query fails. -/
def validate_intent_fulfillment
    (oracle : Bool → String → Except String ValidationResult)
    (intent_event : IntentEvent) (escrow_event : EscrowEvent) (now : Nat) :
    Except String ValidationResult :=
  match intent_event.connected_chain_id with
  | none => .ok { valid := false, message := noConnectedChainMsg, timestamp := now }
  | some intent_offered_chain_id =>
    if escrow_event.offered_amount ≠ intent_event.offered_amount then
      .ok { valid := false
            message := amountMismatchMsg escrow_event.offered_amount
              intent_event.offered_amount
            timestamp := now }
    else
      let escrow_md := normalize_metadata_for_comparison escrow_event.offered_metadata
      let intent_md := normalize_metadata_for_comparison intent_event.offered_metadata
      if escrow_md ≠ intent_md then
        .ok { valid := false
              message := metadataMismatchMsg escrow_event.offered_metadata
                intent_event.offered_metadata escrow_md intent_md
              timestamp := now }
      else if escrow_event.chain_id ≠ intent_offered_chain_id then
        .ok { valid := false
              message := chainIdMismatchMsg escrow_event.chain_id
                intent_offered_chain_id
              timestamp := now }
      else if escrow_event.desired_amount ≠ 0 then
        .ok { valid := false
              message := desiredAmountMsg escrow_event.desired_amount
              timestamp := now }
      else
        match escrow_event.reserved_solver_addr,
            intent_event.reserved_solver_addr with
        | some escrow_solver, some _ =>
          match oracle (escrow_event.chain_type == ChainType.Evm) escrow_solver with
          | .error e => .error e
          | .ok r =>
            if r.valid = false then .ok r
            else .ok { valid := true, message := validationSuccessMsg, timestamp := now }
        | none, none =>
          .ok { valid := true, message := validationSuccessMsg, timestamp := now }
        | _, _ =>
          .ok { valid := false
                message := reservationMismatchMsg escrow_event.reserved_solver_addr
                  intent_event.reserved_solver_addr
                timestamp := now }

/-! Specification-side statements of the six checks of §4.4, to be compared
with the behaviour of `validate_intent_fulfillment`. -/

def CheckConnectedChain (i : IntentEvent) : Prop :=
  i.connected_chain_id.isSome

def CheckOfferedAmount (i : IntentEvent) (e : EscrowEvent) : Prop :=
  e.offered_amount = i.offered_amount

def CheckOfferedMetadata (i : IntentEvent) (e : EscrowEvent) : Prop :=
  normalize_metadata_for_comparison e.offered_metadata =
    normalize_metadata_for_comparison i.offered_metadata

instance (i : IntentEvent) (e : EscrowEvent) :
    Decidable (CheckOfferedAmount i e) := by
  unfold CheckOfferedAmount
  exact inferInstance

instance (i : IntentEvent) (e : EscrowEvent) :
    Decidable (CheckOfferedMetadata i e) := by
  unfold CheckOfferedMetadata
  exact inferInstance

def CheckChainId (i : IntentEvent) (e : EscrowEvent) : Prop :=
  ∀ cid, i.connected_chain_id = some cid → e.chain_id = cid

def CheckDesiredAmountZero (e : EscrowEvent) : Prop :=
  e.desired_amount = 0

instance (e : EscrowEvent) : Decidable (CheckDesiredAmountZero e) := by
  unfold CheckDesiredAmountZero
  exact inferInstance

def CheckSolverReservation
    (oracle : Bool → String → Except String ValidationResult)
    (i : IntentEvent) (e : EscrowEvent) : Prop :=
  match e.reserved_solver_addr, i.reserved_solver_addr with
  | some es, some _ =>
    ∃ r, oracle (e.chain_type == ChainType.Evm) es = .ok r ∧ r.valid = true
  | none, none => True
  | _, _ => False

/-- The substring relation on strings, used to state that a validator message
names the mismatched field. -/
def substrOf (sub msg : String) : Prop :=
  ∃ p q, msg.data = p ++ sub.data ++ q

theorem amountMismatchMsg_contains (a b : Nat) :
    substrOf "amount" (amountMismatchMsg a b) := by
  refine ⟨"Escrow offered ".data,
    (" " ++ toString a ++ " does not match hub intent offered amount " ++
      toString b).data, ?_⟩
  have hconst : "Escrow offered amount ".data =
      "Escrow offered ".data ++ ("amount".data ++ " ".data) := by decide
  simp [amountMismatchMsg, String.data_append, hconst, List.append_assoc]

theorem chainIdMismatchMsg_contains (a b : Nat) :
    substrOf "chain_id" (chainIdMismatchMsg a b) := by
  refine ⟨"Escrow ".data,
    (" " ++ toString a ++ " does not match hub intent offered_chain_id " ++
      toString b ++ ". Escrow was discovered on chain " ++ toString a ++
      " but intent specifies chain " ++ toString b).data, ?_⟩
  have hconst : "Escrow chain_id ".data =
      "Escrow ".data ++ ("chain_id".data ++ " ".data) := by decide
  simp [chainIdMismatchMsg, String.data_append, hconst, List.append_assoc]

/-- Claim C1: the inflow fulfillment validator returns `valid = true` iff all
six checks of §4.4 pass; it never raises an error for a business-rule failure
(an error can only come from the solver sub-validator's registry query); the
checks are applied in order with the first failure short-circuiting, a
mismatched offered amount yielding a message containing "amount" and a
mismatched chain id a message containing "chain_id". -/
theorem c1_inflow_validator
    (oracle : Bool → String → Except String ValidationResult)
    (i : IntentEvent) (e : EscrowEvent) (now : Nat) :
    (∀ r, validate_intent_fulfillment oracle i e now = .ok r →
      (r.valid = true ↔
        (CheckConnectedChain i ∧ CheckOfferedAmount i e ∧
         CheckOfferedMetadata i e ∧ CheckChainId i e ∧
         CheckDesiredAmountZero e ∧ CheckSolverReservation oracle i e))) ∧
    ((∀ b s, ∃ r, oracle b s = .ok r) →
      ∃ r, validate_intent_fulfillment oracle i e now = .ok r) ∧
    (CheckConnectedChain i → ¬ CheckOfferedAmount i e →
      validate_intent_fulfillment oracle i e now =
        .ok { valid := false
              message := amountMismatchMsg e.offered_amount i.offered_amount
              timestamp := now } ∧
      substrOf "amount" (amountMismatchMsg e.offered_amount i.offered_amount)) ∧
    (∀ cid, i.connected_chain_id = some cid → CheckOfferedAmount i e →
      CheckOfferedMetadata i e → e.chain_id ≠ cid →
      validate_intent_fulfillment oracle i e now =
        .ok { valid := false
              message := chainIdMismatchMsg e.chain_id cid
              timestamp := now } ∧
      substrOf "chain_id" (chainIdMismatchMsg e.chain_id cid)) := by
  refine ⟨?_, ?_, ?_, ?_⟩
  · intro r hr
    cases hcc : i.connected_chain_id with
    | none =>
      simp [validate_intent_fulfillment, hcc] at hr
      subst hr
      simp [CheckConnectedChain, hcc]
    | some c =>
      by_cases hamt : e.offered_amount = i.offered_amount
      case neg =>
        simp [validate_intent_fulfillment, hcc, hamt] at hr
        subst hr
        simp [CheckOfferedAmount, hamt]
      case pos =>
      by_cases hmd : normalize_metadata_for_comparison e.offered_metadata =
          normalize_metadata_for_comparison i.offered_metadata
      case neg =>
        simp [validate_intent_fulfillment, hcc, hamt, hmd] at hr
        subst hr
        simp [CheckOfferedMetadata, hmd]
      case pos =>
      by_cases hcid : e.chain_id = c
      case neg =>
        simp [validate_intent_fulfillment, hcc, hamt, hmd, hcid] at hr
        subst hr
        have : ¬ CheckChainId i e := by
          simp [CheckChainId, hcc]
          exact hcid
        simp [this]
      case pos =>
      by_cases hda : e.desired_amount = 0
      case neg =>
        simp [validate_intent_fulfillment, hcc, hamt, hmd, hcid, hda] at hr
        subst hr
        simp [CheckDesiredAmountZero, hda]
      case pos =>
      rcases hes : e.reserved_solver_addr with _ | es <;>
        rcases his : i.reserved_solver_addr with _ | is
      · simp [validate_intent_fulfillment, hcc, hamt, hmd, hcid, hda, hes, his] at hr
        subst hr
        simp [CheckConnectedChain, CheckOfferedAmount, CheckOfferedMetadata,
          CheckChainId, CheckDesiredAmountZero, CheckSolverReservation,
          hcc, hamt, hmd, hcid, hda, hes, his]
      · simp [validate_intent_fulfillment, hcc, hamt, hmd, hcid, hda, hes, his] at hr
        subst hr
        simp [CheckSolverReservation, hes, his]
      · simp [validate_intent_fulfillment, hcc, hamt, hmd, hcid, hda, hes, his] at hr
        subst hr
        simp [CheckSolverReservation, hes, his]
      · rcases horacle : oracle (e.chain_type == ChainType.Evm) es with er | r₀
        · simp [validate_intent_fulfillment, hcc, hamt, hmd, hcid, hda, hes, his,
            horacle] at hr
        · cases hv : r₀.valid with
          | false =>
            simp [validate_intent_fulfillment, hcc, hamt, hmd, hcid, hda, hes,
              his, horacle, hv] at hr
            subst hr
            simp [CheckSolverReservation, hes, his, horacle, hv]
          | true =>
            simp [validate_intent_fulfillment, hcc, hamt, hmd, hcid, hda, hes,
              his, horacle, hv] at hr
            subst hr
            simp [CheckConnectedChain, CheckOfferedAmount, CheckOfferedMetadata,
              CheckChainId, CheckDesiredAmountZero, CheckSolverReservation,
              hcc, hamt, hmd, hcid, hda, hes, his, horacle, hv]
  · intro htot
    cases hcc : i.connected_chain_id with
    | none => simp [validate_intent_fulfillment, hcc]
    | some c =>
      by_cases hamt : e.offered_amount = i.offered_amount
      case neg => simp [validate_intent_fulfillment, hcc, hamt]
      case pos =>
      by_cases hmd : normalize_metadata_for_comparison e.offered_metadata =
          normalize_metadata_for_comparison i.offered_metadata
      case neg => simp [validate_intent_fulfillment, hcc, hamt, hmd]
      case pos =>
      by_cases hcid : e.chain_id = c
      case neg =>
        simp [validate_intent_fulfillment, hcc, hamt, hmd, hcid]
      case pos =>
      by_cases hda : e.desired_amount = 0
      case neg =>
        simp [validate_intent_fulfillment, hcc, hamt, hmd, hcid, hda]
      case pos =>
      rcases hes : e.reserved_solver_addr with _ | es <;>
        rcases his : i.reserved_solver_addr with _ | is
      · simp [validate_intent_fulfillment, hcc, hamt, hmd, hcid, hda, hes, his]
      · simp [validate_intent_fulfillment, hcc, hamt, hmd, hcid, hda, hes, his]
      · simp [validate_intent_fulfillment, hcc, hamt, hmd, hcid, hda, hes, his]
      · obtain ⟨r₀, hro⟩ := htot (e.chain_type == ChainType.Evm) es
        cases hv : r₀.valid with
        | false =>
          simp [validate_intent_fulfillment, hcc, hamt, hmd, hcid, hda, hes,
            his, hro, hv]
        | true =>
          simp [validate_intent_fulfillment, hcc, hamt, hmd, hcid, hda, hes,
            his, hro, hv]
  · intro hcc' hnam
    obtain ⟨c, hcc⟩ := Option.isSome_iff_exists.mp hcc'
    rw [CheckOfferedAmount] at hnam
    refine ⟨?_, amountMismatchMsg_contains _ _⟩
    simp [validate_intent_fulfillment, hcc, hnam]
  · intro cid hcc hamt hmd hcid
    rw [CheckOfferedAmount] at hamt
    rw [CheckOfferedMetadata] at hmd
    refine ⟨?_, chainIdMismatchMsg_contains _ _⟩
    simp [validate_intent_fulfillment, hcc, hamt, hmd, hcid]

/-- A solver sub-validator oracle that always approves, for evaluating the
validator on inputs that reserve no solver. -/
def sampleOracle : Bool → String → Except String ValidationResult :=
  fun _ _ => .ok { valid := true, message := "", timestamp := 0 }

/-- The §8 scenario intent: offered 1000, desired 1000, connected chain 2. -/
def sampleIntent : IntentEvent :=
  { intent_id := "0x01"
    offered_amount := 1000
    offered_metadata := .jsonInner "0x00aaaa"
    desired_amount := 1000
    connected_chain_id := some 2
    reserved_solver_addr := none }

/-- The §8 scenario escrow: offered 1000, desired 0, chain 2; its offered
metadata differs from the intent's only by the `0x` prefix and leading
zeros. -/
def sampleEscrowEvent : EscrowEvent :=
  { escrow_id := "escrow-1"
    offered_amount := 1000
    offered_metadata := .jsonInner "aaaa"
    desired_amount := 0
    chain_id := 2
    chain_type := .Mvm
    reserved_solver_addr := none }

/-- Witness for C1: the §8 scenario validates, and flipping the escrow's chain
id to 3 fails with a message containing "chain_id". -/
theorem c1_inflow_validator_witness :
    (∃ r, validate_intent_fulfillment sampleOracle sampleIntent
      sampleEscrowEvent 42 = .ok r) ∧
    (validate_intent_fulfillment sampleOracle sampleIntent
        { sampleEscrowEvent with chain_id := 3 } 42 =
      .ok { valid := false, message := chainIdMismatchMsg 3 2, timestamp := 42 } ∧
     substrOf "chain_id" (chainIdMismatchMsg 3 2)) :=
  ⟨(c1_inflow_validator sampleOracle sampleIntent sampleEscrowEvent 42).2.1
      (fun _ _ => ⟨_, rfl⟩),
   (c1_inflow_validator sampleOracle sampleIntent
      { sampleEscrowEvent with chain_id := 3 } 42).2.2.2 2 rfl (by decide)
      (by decide) (by decide)⟩

/-! ### Solver registry resolver -/

/-- Modelled from the spec: the possible outcomes of one solver-registry query
(§4.5 and §6). The chain-specific resolver modules
(`inflow_evm`/`inflow_mvm`/`inflow_svm` and their registry clients) are not
part of the extracted tree; only their callers and tests are. -/
inductive RegistryQueryOutcome
  | registered (addr : String)
  | notRegisteredForChain
  | solverAbsent
  | httpError (status : Nat)
  | malformedResponse
deriving DecidableEq, Repr

/-- Modelled from the spec: `resolve(solver_hub_addr, chain_kind)` of §4.5.
A solver registered for the requested chain kind yields `Ok(Some(addr))`;
a solver with no address for that chain kind, or an absent solver record,
yields the business-level `Ok(None)`; a registry query failure (HTTP error or
malformed response) propagates as an error naming the failed registry query,
as the `trusted-gmp` validator tests require. -/
def resolve (outcome : RegistryQueryOutcome) : Except String (Option String) :=
  match outcome with
  | .registered addr => .ok (some addr)
  | .notRegisteredForChain => .ok none
  | .solverAbsent => .ok none
  | .httpError status =>
    .error ("Failed to query solver registry resources: HTTP status " ++
      toString status)
  | .malformedResponse =>
    .error "Failed to query solver registry: malformed response"

/-- Claim C9: a registry query failure (such as an HTTP 500) always propagates
as an error whose message names the registry query; it is never coerced into
`Ok(None)` nor into any `Ok` result; and the inflow validator propagates a
solver sub-validator error verbatim instead of turning it into an invalid
`ValidationResult`. -/
theorem c9_registry_error_propagation :
    (∀ status : Nat, ∃ msg,
      resolve (.httpError status) = .error msg ∧
      substrOf "query" msg ∧ substrOf "registry" msg) ∧
    (∀ (status : Nat) (o : Option String),
      resolve (.httpError status) ≠ .ok o) ∧
    (∀ (i : IntentEvent) (e : EscrowEvent) (now : Nat) (emsg es is : String)
      (cid : Nat),
      e.reserved_solver_addr = some es → i.reserved_solver_addr = some is →
      i.connected_chain_id = some cid →
      CheckOfferedAmount i e → CheckOfferedMetadata i e → e.chain_id = cid →
      CheckDesiredAmountZero e →
      validate_intent_fulfillment (fun _ _ => .error emsg) i e now =
        .error emsg) := by
  refine ⟨?_, ?_, ?_⟩
  · intro status
    refine ⟨_, rfl, ?_, ?_⟩
    · refine ⟨"Failed to ".data,
        (" solver registry resources: HTTP status " ++ toString status).data, ?_⟩
      have hconst : "Failed to query solver registry resources: HTTP status ".data =
          "Failed to ".data ++
            ("query".data ++ " solver registry resources: HTTP status ".data) := by
        decide
      simp [String.data_append, hconst, List.append_assoc]
    · refine ⟨"Failed to query solver ".data,
        (" resources: HTTP status " ++ toString status).data, ?_⟩
      have hconst : "Failed to query solver registry resources: HTTP status ".data =
          "Failed to query solver ".data ++
            ("registry".data ++ " resources: HTTP status ".data) := by
        decide
      simp [String.data_append, hconst, List.append_assoc]
  · intro status o
    simp [resolve]
  · intro i e now emsg es is cid hes his hcc hamt hmd hcid hda
    rw [CheckOfferedAmount] at hamt
    rw [CheckOfferedMetadata] at hmd
    rw [CheckDesiredAmountZero] at hda
    simp [validate_intent_fulfillment, hes, his, hcc, hamt, hmd, hcid, hda]

/-- Witness for C9: an HTTP 500 query failure yields an error, and the
validator run against a failing registry on a concrete intent/escrow pair with
reserved solvers returns that error rather than any `ValidationResult`. -/
theorem c9_registry_error_propagation_witness :
    (∃ msg, resolve (.httpError 500) = .error msg ∧
      substrOf "query" msg ∧ substrOf "registry" msg) ∧
    resolve (.httpError 500) ≠ .ok none ∧
    validate_intent_fulfillment (fun _ _ => .error "registry down")
      { sampleIntent with reserved_solver_addr := some "0xsolverhub" }
      { sampleEscrowEvent with reserved_solver_addr := some "0xsolverconn" } 42 =
      .error "registry down" :=
  ⟨c9_registry_error_propagation.1 500,
   c9_registry_error_propagation.2.1 500 none,
   c9_registry_error_propagation.2.2
     { sampleIntent with reserved_solver_addr := some "0xsolverhub" }
     { sampleEscrowEvent with reserved_solver_addr := some "0xsolverconn" }
     42 "registry down" "0xsolverconn" "0xsolverhub" 2 rfl rfl rfl
     (by decide) (by decide) (by decide) (by decide)⟩

/-! ### Address/ID normalizer

Modelled from the spec: the width-parameterized normalizer of §4.1
(`normalize(value, width_bytes) -> canonical_bytes`) lives in utility modules
that are not part of the extracted tree; only `normalize_metadata_for_comparison`
(above) is. Following §4.1: strip an optional `0x` prefix; left-pad an
odd-length hex string with one zero nibble; decode to bytes; left-pad with zero
bytes up to `width_bytes`, rejecting longer inputs with `TooLong`; reject
non-hex input with `InvalidHex`. -/

/-- Normalizer errors of §4.1. -/
inductive NormalizeError
  | InvalidHex
  | TooLong
deriving DecidableEq, Repr

/-- The value of one hex digit, case-insensitive (`none` for a non-digit). -/
def hexDigitVal (c : Char) : Option Nat :=
  let n := c.toNat
  if 48 ≤ n ∧ n ≤ 57 then some (n - 48)
  else if 97 ≤ n ∧ n ≤ 102 then some (n - 97 + 10)
  else if 65 ≤ n ∧ n ≤ 70 then some (n - 65 + 10)
  else none

/-- Decode an even-length hex digit sequence into bytes. -/
def hexPairsToBytes : List Char → Option (List Nat)
  | [] => some []
  | c1 :: c2 :: rest =>
    match hexDigitVal c1, hexDigitVal c2, hexPairsToBytes rest with
    | some h, some l, some bs => some ((h * 16 + l) :: bs)
    | _, _, _ => none
  | [_] => none

/-- The numeric value denoted by a hex digit sequence, big-endian. -/
def hexValAux : List Char → Nat → Option Nat
  | [], acc => some acc
  | c :: rest, acc =>
    match hexDigitVal c with
    | none => none
    | some v => hexValAux rest (acc * 16 + v)

/-- The numeric value denoted by a (possibly `0x`-prefixed) hex string: the
formalization of two inputs "denoting the same bytes". -/
def hexVal (s : String) : Option Nat :=
  hexValAux (strip0x s).data 0

/-- The byte sequence decoded from a hex string, after prefix stripping and
odd-length zero-nibble padding. -/
def hexBytes (value : String) : Option (List Nat) :=
  let s := strip0x value
  let chars := if s.data.length % 2 = 1 then '0' :: s.data else s.data
  hexPairsToBytes chars

/-- Modelled from the spec: `normalize(value, width_bytes)` of §4.1. -/
def normalize (value : String) (width_bytes : Nat) :
    Except NormalizeError (List Nat) :=
  match hexBytes value with
  | none => .error .InvalidHex
  | some bytes =>
    if width_bytes < bytes.length then .error .TooLong
    else .ok (List.replicate (width_bytes - bytes.length) 0 ++ bytes)

theorem hexDigitVal_lt (c : Char) (v : Nat) (h : hexDigitVal c = some v) :
    v < 16 := by
  simp only [hexDigitVal] at h
  split_ifs at h <;> simp_all <;> omega

theorem hexPairsToBytes_lt :
    ∀ (cs : List Char) (bytes : List Nat), hexPairsToBytes cs = some bytes →
      ∀ b ∈ bytes, b < 256
  | [], bytes, h => by
    simp [hexPairsToBytes] at h
    subst h
    simp
  | [c], bytes, h => by
    simp [hexPairsToBytes] at h
  | c1 :: c2 :: rest, bytes, h => by
    unfold hexPairsToBytes at h
    cases h1 : hexDigitVal c1 with
    | none => rw [h1] at h; simp at h
    | some hv =>
      cases h2 : hexDigitVal c2 with
      | none => rw [h1, h2] at h; simp at h
      | some lv =>
        cases h3 : hexPairsToBytes rest with
        | none => rw [h1, h2, h3] at h; simp at h
        | some bs =>
          rw [h1, h2, h3] at h
          simp at h
          intro b hb
          rw [← h] at hb
          rcases List.mem_cons.mp hb with hb | hb
          · have := hexDigitVal_lt c1 hv h1
            have := hexDigitVal_lt c2 lv h2
            omega
          · exact hexPairsToBytes_lt rest bs h3 b hb

theorem hexValAux_pairs :
    ∀ (cs : List Char) (bytes : List Nat), hexPairsToBytes cs = some bytes →
      ∀ acc, hexValAux cs acc = some (acc * 256 ^ bytes.length + fromBe bytes)
  | [], bytes, h => by
    simp [hexPairsToBytes] at h
    subst h
    simp [hexValAux, fromBe]
  | [c], bytes, h => by
    simp [hexPairsToBytes] at h
  | c1 :: c2 :: rest, bytes, h => by
    unfold hexPairsToBytes at h
    cases h1 : hexDigitVal c1 with
    | none => rw [h1] at h; simp at h
    | some hv =>
      cases h2 : hexDigitVal c2 with
      | none => rw [h1, h2] at h; simp at h
      | some lv =>
        cases h3 : hexPairsToBytes rest with
        | none => rw [h1, h2, h3] at h; simp at h
        | some bs =>
          rw [h1, h2, h3] at h
          simp at h
          intro acc
          rw [← h]
          have hrec := hexValAux_pairs rest bs h3 ((acc * 16 + hv) * 16 + lv)
          have hfb : fromBe ((hv * 16 + lv) :: bs) =
              (hv * 16 + lv) * 256 ^ bs.length + fromBe bs := by
            show List.foldl (fun acc b => acc * 256 + b) 0 ((hv * 16 + lv) :: bs) =
              (hv * 16 + lv) * 256 ^ bs.length + fromBe bs
            rw [List.foldl_cons, foldl_mulAdd]
            ring
          simp only [hexValAux, h1, h2]
          rw [hrec, List.length_cons, hfb]
          congr 1
          ring

theorem fromBe_replicate_zero (n : Nat) (l : List Nat) :
    fromBe (List.replicate n 0 ++ l) = fromBe l := by
  induction n with
  | zero => simp
  | succ n ih =>
    rw [List.replicate_succ, List.cons_append]
    unfold fromBe
    rw [List.foldl_cons]
    simpa [fromBe] using ih

theorem pad_eq_beBytes (l : List Nat) (k : Nat) (hb : ∀ x ∈ l, x < 256)
    (hlen : l.length ≤ k) :
    List.replicate (k - l.length) 0 ++ l = beBytes k (fromBe l) := by
  have h1 : (List.replicate (k - l.length) 0 ++ l).length = k := by
    simp
    omega
  have h2 : ∀ x ∈ List.replicate (k - l.length) 0 ++ l, x < 256 := by
    intro x hx
    rcases List.mem_append.mp hx with hx | hx
    · have := List.eq_of_mem_replicate hx
      omega
    · exact hb x hx
  have h3 := beBytes_fromBe _ h2
  rw [fromBe_replicate_zero, h1] at h3
  exact h3.symm

theorem mk_data (s : String) : String.mk s.data = s := by
  cases s
  rfl

theorem strip0x_0x (s : String) : strip0x ("0x" ++ s) = s := by
  have hd : ("0x" ++ s).data = '0' :: 'x' :: s.data := by
    rw [String.data_append]
    rfl
  unfold strip0x
  rw [hd]
  exact mk_data s

theorem strip0x_00 (s : String) : strip0x ("00" ++ s) = "00" ++ s := by
  have hd : ("00" ++ s).data = '0' :: '0' :: s.data := by
    rw [String.data_append]
    rfl
  unfold strip0x
  rw [hd]
  rfl

theorem hexVal_0x (s : String) (h : strip0x s = s) :
    hexVal ("0x" ++ s) = hexVal s := by
  unfold hexVal
  rw [strip0x_0x, h]

theorem hexVal_00 (s : String) (h : strip0x s = s) :
    hexVal ("00" ++ s) = hexVal s := by
  unfold hexVal
  rw [strip0x_00, h]
  have hd : ("00" ++ s).data = '0' :: '0' :: s.data := by
    rw [String.data_append]
    rfl
  rw [hd]
  have h0 : hexDigitVal '0' = some 0 := by decide
  simp [hexValAux, h0]

theorem charOfNat_toNat (n : Nat) (h : n.isValidChar) :
    (Char.ofNat n).toNat = n := by
  unfold Char.ofNat
  rw [dif_pos h]
  simp [Char.ofNatAux, Char.toNat, UInt32.toNat]

theorem hexDigitVal_toLower (c : Char) :
    hexDigitVal (Char.toLower c) = hexDigitVal c := by
  unfold Char.toLower
  by_cases h : c.toNat ≥ 65 ∧ c.toNat ≤ 90
  · rw [if_pos h]
    have hvalid : (c.toNat + 32).isValidChar := Or.inl (by omega)
    have ht := charOfNat_toNat (c.toNat + 32) hvalid
    simp only [hexDigitVal, ht]
    obtain ⟨h1, h2⟩ := h
    split_ifs <;> first | rfl | omega
  · rw [if_neg h]

theorem hexValAux_map_toLower (cs : List Char) :
    ∀ acc, hexValAux (cs.map Char.toLower) acc = hexValAux cs acc := by
  induction cs with
  | nil => intro acc; rfl
  | cons c rest ih =>
    intro acc
    simp only [List.map_cons, hexValAux, hexDigitVal_toLower]
    cases h : hexDigitVal c with
    | none => simp [h]
    | some v => simp [h, ih]

theorem normalize_ok (s : String) (w : Nat) (b : List Nat)
    (h : normalize s w = .ok b) :
    ∃ v, hexVal s = some v ∧ b = beBytes w v := by
  unfold normalize at h
  split at h
  next hp => simp at h
  next bytes hp =>
    by_cases hw : w < bytes.length
    · rw [if_pos hw] at h
      exact absurd h (by simp)
    · rw [if_neg hw] at h
      have hb : List.replicate (w - bytes.length) 0 ++ bytes = b := by
        simpa using h
      have hlt : ∀ x ∈ bytes, x < 256 := by
        simp only [hexBytes] at hp
        exact hexPairsToBytes_lt _ _ hp
      have hval : hexVal s = some (fromBe bytes) := by
        simp only [hexBytes] at hp
        unfold hexVal
        by_cases hodd : (strip0x s).data.length % 2 = 1
        · rw [if_pos hodd] at hp
          have h0 : hexDigitVal '0' = some 0 := by decide
          have hv := hexValAux_pairs _ _ hp 0
          rw [show hexValAux ('0' :: (strip0x s).data) 0 =
              hexValAux (strip0x s).data 0 from by simp [hexValAux, h0]] at hv
          simpa using hv
        · rw [if_neg hodd] at hp
          have hv := hexValAux_pairs _ _ hp 0
          simpa using hv
      refine ⟨fromBe bytes, hval, ?_⟩
      rw [← hb]
      exact pad_eq_beBytes bytes w hlt (by omega)

/-- Claim C8: any two hex inputs denoting the same value (so in particular
inputs differing only in a `0x` prefix, leading zeros or letter case)
normalize to the same canonical value; `normalize` rejects inputs longer than
the target width with `TooLong` and always emits exactly `width` bytes;
JSON-wrapped metadata addresses are unwrapped and normalized invariantly under
`0x` prefixes and leading zeros, and plain metadata strings fall back to
lowercase comparison. -/
theorem c8_normalization_equivalence :
    (∀ (s₁ s₂ : String) (w : Nat) (b₁ b₂ : List Nat),
      normalize s₁ w = .ok b₁ → normalize s₂ w = .ok b₂ →
      hexVal s₁ = hexVal s₂ → b₁ = b₂) ∧
    (∀ (s : String) (w : Nat), strip0x s = s →
      normalize ("0x" ++ s) w = normalize s w) ∧
    (∀ s : String, strip0x s = s → hexVal ("00" ++ s) = hexVal s) ∧
    (∀ (cs : List Char) (acc : Nat),
      hexValAux (cs.map Char.toLower) acc = hexValAux cs acc) ∧
    (∀ (s : String) (w : Nat) (b : List Nat),
      normalize s w = .ok b → b.length = w) ∧
    (∀ (s : String) (w : Nat) (bytes : List Nat),
      hexBytes s = some bytes → w < bytes.length →
      normalize s w = .error .TooLong) ∧
    (∀ s : String, strip0x s = s →
      normalize_metadata_for_comparison (.jsonInner ("0x" ++ s)) =
        normalize_metadata_for_comparison (.jsonInner s)) ∧
    (∀ s : String, strip0x s = s →
      normalize_metadata_for_comparison (.jsonInner ("00" ++ s)) =
        normalize_metadata_for_comparison (.jsonInner s)) ∧
    (∀ s : String,
      normalize_metadata_for_comparison (.plain s) = strLower s) := by
  refine ⟨?_, ?_, ?_, hexValAux_map_toLower, ?_, ?_, ?_, ?_, fun s => rfl⟩
  · intro s₁ s₂ w b₁ b₂ h1 h2 heq
    obtain ⟨v₁, hv₁, hb₁⟩ := normalize_ok s₁ w b₁ h1
    obtain ⟨v₂, hv₂, hb₂⟩ := normalize_ok s₂ w b₂ h2
    rw [hv₁, hv₂] at heq
    injection heq with heq'
    rw [hb₁, hb₂, heq']
  · intro s w h
    have hbytes : hexBytes ("0x" ++ s) = hexBytes s := by
      simp only [hexBytes, strip0x_0x, h]
    unfold normalize
    rw [hbytes]
  · exact hexVal_00
  · intro s w b h
    obtain ⟨v, _, hb⟩ := normalize_ok s w b h
    rw [hb, length_beBytes]
  · intro s w bytes hp hw
    simp only [normalize, hp]
    rw [if_pos hw]
  · intro s h
    simp only [normalize_metadata_for_comparison]
    rw [strip0x_0x, h]
  · intro s h
    simp only [normalize_metadata_for_comparison]
    rw [strip0x_00, h]
    have hd : ("00" ++ s).data = '0' :: '0' :: s.data := by
      rw [String.data_append]
      rfl
    rw [hd]
    simp [List.dropWhile]

/-- Witness for C8: `0x00AAaa` and `aaaa` denote the same bytes and normalize
to the same canonical 4-byte value; a 3-byte input is rejected at width 2 with
`TooLong`; the JSON-wrapped metadata forms of `00aaaa` and `aaaa` normalize
equal. -/
theorem c8_normalization_equivalence_witness :
    (([0, 0, 170, 170] : List Nat) = [0, 0, 170, 170]) ∧
    normalize "aabbcc" 2 = .error .TooLong ∧
    normalize_metadata_for_comparison (.jsonInner ("00" ++ "aaaa")) =
      normalize_metadata_for_comparison (.jsonInner "aaaa") :=
  ⟨c8_normalization_equivalence.1 "0x00AAaa" "aaaa" 4 [0, 0, 170, 170]
      [0, 0, 170, 170] rfl rfl rfl,
   c8_normalization_equivalence.2.2.2.2.2.1 "aabbcc" 2 [170, 187, 204]
      rfl (by decide),
   c8_normalization_equivalence.2.2.2.2.2.2.2.1 "aaaa" rfl⟩

end Intents
